import Mathlib

/-!
Verification of the campus-connect-ai backend's context-assembly pipeline.

The repository contains two revisions of the same Express route file
(`api/index.js`): a Groq-based revision and a Gemini-based revision, separated
in the harvested source.  Both are embedded here:

* `chatGroq` embeds the Groq revision's `POST /api/chat` handler: keyword
  classification by regular-expression substring test, the optional date/time,
  news and document context fragments accumulated into a single `context`
  string that prefixes the final user message, and the
  `[system, ...history, user]` message array handed to the model client.
* `chatGemini` embeds the Gemini revision's `POST /api/chat` handler: an
  unconditional date/time context prefix, keyword-list news matching, the
  history mapped to `user`/`model` roles, and the final user turn whose parts
  list optionally begins with the document fragment.
* `fetchCurrentNews` / `fetchCurrentNewsG` embed the two `fetchCurrentNews`
  helpers.  External I/O (the HTTP fetch and JSON parse) is modelled by a small
  outcome type: the network either throws, returns a JSON body without an
  `articles` array, or returns articles.  The Groq helper has no try/catch, so
  a thrown fetch is an `Except.error`; the Gemini helper catches everything and
  always returns a string.
* `uploadGroq` / `uploadGemini` embed the two `POST /api/upload` handlers.  The
  document loaders and the text splitter are external collaborators; their
  outputs (`docs`, the loaded page contents, and `chunks`, the split chunk
  contents) are carried as fields of the uploaded file value.  The Groq upload
  handler has no try/catch around `loader.load()`, so the embedding covers the
  runs in which the loader returns; the Gemini handler's catch is modelled by
  the `loadThrows` flag.

The current wall-clock date and time, the model client's outcome and the news
service's behaviour are inputs (`ChatEnv` / `GeminiEnv`), since the handlers
only consume them.
-/

namespace CampusConnect

/-- Does `pat` occur as a prefix of `hay` (character lists)? -/
def listStartsWith : List Char → List Char → Bool
  | [], _ => true
  | _ :: _, [] => false
  | p :: ps, h :: hs => p == h && listStartsWith ps hs

/-- Does `pat` occur as a contiguous substring of `hay` (character lists)?
Mirrors the semantics of JavaScript `String.prototype.includes` and of a
regular-expression literal-alternative test. -/
def listContainsSub (pat : List Char) : List Char → Bool
  | [] => listStartsWith pat []
  | h :: hs => listStartsWith pat (h :: hs) || listContainsSub pat hs

/-- `hay.includes(pat)` on strings (case-sensitive). -/
def containsSub (hay pat : String) : Bool := listContainsSub pat.data hay.data

/-- Character-wise lower-casing, as in `String.prototype.toLowerCase` for the
ASCII texts involved here. -/
def lowerStr (s : String) : String := String.mk (s.data.map Char.toLower)

/-- Case-insensitive substring test, as performed by an `/.../i` regex with
literal alternatives. -/
def containsCI (hay pat : String) : Bool := containsSub (lowerStr hay) (lowerStr pat)

/-- A history entry as sent by the frontend: `{ sender, content }`. -/
structure ChatMsg where
  sender : String
  content : String
deriving DecidableEq

/-- A role-tagged message part of the Groq prompt array. -/
structure Part where
  role : String
  content : String
deriving DecidableEq

/-- The Groq revision's datetime classification: `/date|time|today|now/i.test(message)`. -/
def matchesDate (m : String) : Bool :=
  containsCI m "date" || containsCI m "time" || containsCI m "today" || containsCI m "now"

/-- The Groq revision's news classification: `/news|headlines|current events/i.test(message)`. -/
def matchesNews (m : String) : Bool :=
  containsCI m "news" || containsCI m "headlines" || containsCI m "current events"

/-- Outcome of the external news HTTP round trip, as the Groq helper can
observe it: the fetch (or the JSON parse) throws, or the parsed body has no
`articles` array, or it has one. -/
inductive NewsNet
  | netError
  | jsonNoArticles
  | jsonArticles (titles : List String)
deriving DecidableEq

/-- `data.articles.map((a, i) => `${i + 1}. ${a.title}`).join("\n")`. -/
def formatGroqNews (titles : List String) : String :=
  String.intercalate "\n" (titles.enum.map (fun p => toString (p.fst + 1) ++ ". " ++ p.snd))

/-- The Groq revision's `fetchCurrentNews`.  A missing key and a body without
articles return fallback strings; a thrown fetch propagates (`Except.error`),
since this revision has no try/catch. -/
def fetchCurrentNews (key : Option String) (net : NewsNet) (_query : String)
    (_limit : Nat) : Except Unit String :=
  match key with
  | none => Except.ok "News API key not configured."
  | some _ =>
    match net with
    | NewsNet.netError => Except.error ()
    | NewsNet.jsonNoArticles => Except.ok "No news found."
    | NewsNet.jsonArticles titles => Except.ok (formatGroqNews titles)

/-- Environment of one Groq chat request: the wall clock formatted by
`toDateString` / `toLocaleTimeString`, the news configuration and network
outcome, and the model client's outcome. -/
structure ChatEnv where
  dateStr : String
  timeStr : String
  newsKey : Option String
  newsNet : NewsNet
  modelResult : Except Unit String

/-- `Current date: ${now.toDateString()}, time: ${now.toLocaleTimeString()}. ` -/
def dateTimeFragment (d t : String) : String :=
  "Current date: " ++ d ++ ", time: " ++ t ++ ". "

/-- The date/time contribution to the Groq `context` accumulator. -/
def dateCtx (env : ChatEnv) (m : String) : String :=
  if matchesDate m then dateTimeFragment env.dateStr env.timeStr else ""

/-- The news contribution to the Groq `context` accumulator; an error of the
underlying fetch propagates to the route's catch block. -/
def newsCtxResult (env : ChatEnv) (m : String) : Except Unit String :=
  if matchesNews m then
    match fetchCurrentNews env.newsKey env.newsNet m 3 with
    | Except.error e => Except.error e
    | Except.ok news => Except.ok ("Recent news:\n" ++ news ++ "\n\n")
  else Except.ok ""

/-- `Document context:\n${uploadedDocumentText}\n\n` -/
def docFragment (d : String) : String := "Document context:\n" ++ d ++ "\n\n"

/-- JavaScript truthiness of the document-store value (`null` and `""` are
falsy). -/
def strTruthy : Option String → Bool
  | none => false
  | some s => !(s == "")

/-- The document contribution to the Groq `context` accumulator, guarded by
`if (uploadedDocumentText)`. -/
def docCtx : Option String → String
  | none => ""
  | some d => if d = "" then "" else docFragment d

/-- The fixed system instruction part of the Groq prompt array. -/
def systemPart : Part :=
  Part.mk "system"
    "You are Campus Connect AI, a helpful academic assistant. Respond clearly and concisely using Markdown."

/-- `{ role: m.sender === 'user' ? 'user' : 'assistant', content: m.content }` -/
def toGroqPart (msg : ChatMsg) : Part :=
  Part.mk (if msg.sender = "user" then "user" else "assistant") msg.content

/-- Observable outcome of one Groq chat request: HTTP status, the `response`
body field on success, the prompt array handed to the model (when one was
built), whether the model client was invoked, and the document store after the
request. -/
structure ChatOutput where
  status : Nat
  response : Option String
  prompt : Option (List Part)
  modelCalled : Bool
  docAfter : Option String
deriving DecidableEq

/-- The Groq revision's `POST /api/chat` handler. -/
def chatGroq (message : Option String) (hist : List ChatMsg) (doc : Option String)
    (env : ChatEnv) : ChatOutput :=
  match message with
  | none => ChatOutput.mk 400 none none false doc
  | some m =>
    if m = "" then ChatOutput.mk 400 none none false doc
    else
      match newsCtxResult env m with
      | Except.error _ => ChatOutput.mk 500 none none false doc
      | Except.ok nctx =>
        let msgs := systemPart :: hist.map toGroqPart ++
          [Part.mk "user" (dateCtx env m ++ nctx ++ docCtx doc ++ m)]
        match env.modelResult with
        | Except.error _ => ChatOutput.mk 500 none (some msgs) true doc
        | Except.ok t => ChatOutput.mk 200 (some t) (some msgs) true doc

/-- The apostrophe character, used by several Gemini-revision string literals. -/
def apos : String := String.singleton (Char.ofNat 39)

/-- `User's query: ` -/
def usersQueryLabel : String := "User" ++ apos ++ "s query: "

/-- The Gemini revision's news keyword `what's happening`. -/
def whatsHappeningKw : String := "what" ++ apos ++ "s happening"

/-- The Gemini revision's news keyword `today's news`. -/
def todaysNewsKw : String := "today" ++ apos ++ "s news"

/-- The Gemini revision's news keyword list. -/
def newsKeywordsG : List String :=
  ["news", "current events", "latest headlines", whatsHappeningKw, "breaking news", todaysNewsKw]

/-- `newsKeywords.some(keyword => userMessage.toLowerCase().includes(keyword))` -/
def matchesNewsG (m : String) : Bool :=
  newsKeywordsG.any (fun kw => containsSub (lowerStr m) kw)

/-- A news article as consumed by the Gemini helper. -/
structure GArticle where
  title : String
  sourceName : Option String
  description : Option String
deriving DecidableEq

/-- Outcome of the external news round trip as the Gemini helper can observe
it: the fetch throws, the response is not OK, or it is OK with an optional
`articles` array. -/
inductive NewsNetG
  | fetchThrows
  | notOk
  | ok (articles : Option (List GArticle))
deriving DecidableEq

/-- One numbered line of the Gemini news summary. -/
def articleLine (idx : Nat) (a : GArticle) : String :=
  toString (idx + 1) ++ ". " ++ a.title ++ " - " ++
    (match a.sourceName with
      | some s => if s = "" then "Unknown Source" else s
      | none => "Unknown Source") ++ ".\n" ++
    (match a.description with
      | some dsc => if dsc = "" then "" else "   " ++ dsc ++ "\n"
      | none => "")

/-- The Gemini news summary for a non-empty article list. -/
def formatGeminiNews (arts : List GArticle) : String :=
  "Here are some recent news headlines:\n" ++
    String.join (arts.enum.map (fun p => articleLine p.fst p.snd))

/-- The Gemini helper's no-results message. -/
def noNewsFoundG (query : String) : String :=
  "I couldn" ++ apos ++ "t find any recent news related to \"" ++ query ++ "\"."

/-- The Gemini revision's `fetchCurrentNews`: every failure mode is caught and
converted into a human-readable string, so the helper is total. -/
def fetchCurrentNewsG (key : Option String) (net : NewsNetG) (query : String)
    (_limit : Nat) : String :=
  match key with
  | none =>
    "I cannot access real-time news updates at the moment because my news API key is not configured."
  | some _ =>
    match net with
    | NewsNetG.fetchThrows =>
      "I encountered an error while trying to get the latest news. Please check the backend logs for details."
    | NewsNetG.notOk =>
      "I" ++ apos ++ "m having trouble fetching current news from the news API right now. Please try again later."
    | NewsNetG.ok (some (a :: rest)) => formatGeminiNews (a :: rest)
    | NewsNetG.ok _ => noNewsFoundG query

/-- Environment of one Gemini chat request. -/
structure GeminiEnv where
  dateStr : String
  timeStr : String
  newsKey : Option String
  newsNet : NewsNetG
  modelResult : Except Unit String

/-- A Gemini `contents` entry: a role with a list of text parts. -/
structure GEntry where
  role : String
  parts : List String
deriving DecidableEq

/-- Observable outcome of one Gemini chat request. -/
structure GChatOutput where
  status : Nat
  response : Option String
  contents : Option (List GEntry)
  docAfter : Option String
deriving DecidableEq

/-- `Current date: ${currentDate}. Current time: ${currentTime}. ` — prepended
unconditionally by the Gemini revision. -/
def geminiBaseCtx (env : GeminiEnv) : String :=
  "Current date: " ++ env.dateStr ++ ". Current time: " ++ env.timeStr ++ ". "

/-- The Gemini revision's news contribution to `context`. -/
def geminiNewsCtx (env : GeminiEnv) (m : String) : String :=
  if matchesNewsG m then
    "Here is some recent news context: " ++ fetchCurrentNewsG env.newsKey env.newsNet m 3 ++ "\n\n"
  else ""

/-- The text of the non-document part of the Gemini final user turn:
`${context}User's query: ${userMessage}`. -/
def geminiFinalText (env : GeminiEnv) (m : String) : String :=
  geminiBaseCtx env ++ geminiNewsCtx env m ++ usersQueryLabel ++ m

/-- `Context from document:\n${uploadedDocumentText}\n\n` -/
def docFragmentG (d : String) : String := "Context from document:\n" ++ d ++ "\n\n"

/-- `{ role: msg.sender === 'user' ? 'user' : 'model', parts: [{ text: msg.content }] }` -/
def toGeminiHist (msg : ChatMsg) : GEntry :=
  GEntry.mk (if msg.sender = "user" then "user" else "model") [msg.content]

/-- The parts of the Gemini final user turn: the document fragment is
`unshift`ed in front when the store is truthy. -/
def geminiFinalParts (doc : Option String) (env : GeminiEnv) (m : String) : List String :=
  match doc with
  | some d => if d = "" then [geminiFinalText env m] else [docFragmentG d, geminiFinalText env m]
  | none => [geminiFinalText env m]

/-- The Gemini revision's `POST /api/chat` handler. -/
def chatGemini (message : Option String) (hist : List ChatMsg) (doc : Option String)
    (env : GeminiEnv) : GChatOutput :=
  match message with
  | none => GChatOutput.mk 400 none none doc
  | some m =>
    if m = "" then GChatOutput.mk 400 none none doc
    else
      let cs := hist.map toGeminiHist ++ [GEntry.mk "user" (geminiFinalParts doc env m)]
      match env.modelResult with
      | Except.error _ => GChatOutput.mk 500 none (some cs) doc
      | Except.ok t => GChatOutput.mk 200 (some t) (some cs) doc

/-- An uploaded file, together with the outputs of the external loader
(`docs`, the loaded page contents) and splitter (`chunks`). -/
structure UploadFile where
  mimetype : String
  docs : List String
  chunks : List String
deriving DecidableEq

/-- Observable outcome of one upload request. -/
structure UploadOutput where
  status : Nat
  docAfter : Option String
deriving DecidableEq

/-- `chunks.map(d => d.pageContent).join("\n\n")` -/
def joinChunks (chunks : List String) : String := String.intercalate "\n\n" chunks

/-- The Groq revision's MIME acceptance: exact PDF or plain text, or a
mimetype containing `wordprocessingml`. -/
def supportedGroq (mime : String) : Bool :=
  mime == "application/pdf" || mime == "text/plain" || containsSub mime "wordprocessingml"

/-- The Groq revision's `POST /api/upload` handler (for runs in which the
loader returns; this revision has no try/catch).  Note: there is no check that
the extracted text is non-empty. -/
def uploadGroq (file : Option UploadFile) (doc : Option String) : UploadOutput :=
  match file with
  | none => UploadOutput.mk 400 doc
  | some f =>
    if supportedGroq f.mimetype then UploadOutput.mk 200 (some (joinChunks f.chunks))
    else UploadOutput.mk 400 doc

/-- The Gemini revision's MIME acceptance: exactly PDF, plain text or DOCX. -/
def mimeGeminiOK (mime : String) : Bool :=
  mime == "application/pdf" || mime == "text/plain" ||
    mime == "application/vnd.openxmlformats-officedocument.wordprocessingml.document"

/-- The Gemini revision's `POST /api/upload` handler; `loadThrows` models the
loader or splitter throwing inside the try block. -/
def uploadGemini (file : Option UploadFile) (loadThrows : Bool) (doc : Option String) :
    UploadOutput :=
  match file with
  | none => UploadOutput.mk 400 doc
  | some f =>
    if mimeGeminiOK f.mimetype then
      if loadThrows then UploadOutput.mk 500 doc
      else
        match f.docs with
        | [] => UploadOutput.mk 400 doc
        | _ :: _ => UploadOutput.mk 200 (some (joinChunks f.chunks))
    else UploadOutput.mk 400 doc

/-- The news contribution actually concatenated into the Groq `context` on the
runs where the fetch does not throw (`""` on the throwing runs, which never
reach the concatenation). -/
def newsCtxStr (env : ChatEnv) (m : String) : String :=
  match newsCtxResult env m with
  | Except.ok s => s
  | Except.error _ => ""

/-- Does a Groq prompt part mention the document-context fragment? -/
def mentionsDoc (p : Part) : Bool := containsSub p.content "Document context:"

/-! Helper lemmas -/

lemma dateTimeFragment_ne_empty (d t : String) : dateTimeFragment d t ≠ "" := by
  intro h
  have hlen := congrArg String.length h
  rw [dateTimeFragment] at hlen
  simp only [String.length_append] at hlen
  have h1 : ("Current date: " : String).length = 14 := rfl
  have h2 : (", time: " : String).length = 8 := rfl
  have h3 : (". " : String).length = 2 := rfl
  have h0 : ("" : String).length = 0 := rfl
  rw [h1, h2, h3, h0] at hlen
  omega

lemma chatGroq_prompt_eq {m : String} (hist : List ChatMsg) (doc : Option String)
    (env : ChatEnv) (hm : m ≠ "") {nctx : String}
    (hn : newsCtxResult env m = Except.ok nctx) :
    (chatGroq (some m) hist doc env).prompt =
      some (systemPart :: hist.map toGroqPart ++
        [Part.mk "user" (dateCtx env m ++ nctx ++ docCtx doc ++ m)]) := by
  cases hmr : env.modelResult <;> simp [chatGroq, hm, hn, hmr]

lemma chatGroq_prompt_inv {message : Option String} {hist : List ChatMsg}
    {doc : Option String} {env : ChatEnv} {ms : List Part}
    (h : (chatGroq message hist doc env).prompt = some ms) :
    ∃ m nctx, message = some m ∧ m ≠ "" ∧ newsCtxResult env m = Except.ok nctx ∧
      ms = systemPart :: hist.map toGroqPart ++
        [Part.mk "user" (dateCtx env m ++ nctx ++ docCtx doc ++ m)] := by
  cases message with
  | none => simp [chatGroq] at h
  | some m =>
    by_cases hm : m = ""
    · simp [chatGroq, hm] at h
    · cases hn : newsCtxResult env m with
      | error e => simp [chatGroq, hm, hn] at h
      | ok nctx =>
        refine ⟨m, nctx, rfl, hm, hn, ?_⟩
        cases hmr : env.modelResult with
        | error e =>
          simp [chatGroq, hm, hn, hmr] at h
          exact h.symm
        | ok t =>
          simp [chatGroq, hm, hn, hmr] at h
          exact h.symm

lemma chatGemini_contents_eq {m : String} (hist : List ChatMsg) (doc : Option String)
    (env : GeminiEnv) (hm : m ≠ "") :
    (chatGemini (some m) hist doc env).contents =
      some (hist.map toGeminiHist ++ [GEntry.mk "user" (geminiFinalParts doc env m)]) := by
  cases hmr : env.modelResult <;> simp [chatGemini, hm, hmr]

lemma chatGemini_contents_inv {message : Option String} {hist : List ChatMsg}
    {doc : Option String} {env : GeminiEnv} {cs : List GEntry}
    (h : (chatGemini message hist doc env).contents = some cs) :
    ∃ m, message = some m ∧ m ≠ "" ∧
      cs = hist.map toGeminiHist ++ [GEntry.mk "user" (geminiFinalParts doc env m)] := by
  cases message with
  | none => simp [chatGemini] at h
  | some m =>
    by_cases hm : m = ""
    · simp [chatGemini, hm] at h
    · refine ⟨m, rfl, hm, ?_⟩
      cases hmr : env.modelResult with
      | error e =>
        simp [chatGemini, hm, hmr] at h
        exact h.symm
      | ok t =>
        simp [chatGemini, hm, hmr] at h
        exact h.symm

lemma newsCtxStr_eq {env : ChatEnv} {m nctx : String}
    (hn : newsCtxResult env m = Except.ok nctx) : newsCtxStr env m = nctx := by
  simp [newsCtxStr, hn]

lemma chatGroq_modelCalled_eq {m : String} (hist : List ChatMsg) (doc : Option String)
    (env : ChatEnv) (hm : m ≠ "") {nctx : String}
    (hn : newsCtxResult env m = Except.ok nctx) :
    (chatGroq (some m) hist doc env).modelCalled = true := by
  cases hmr : env.modelResult <;> simp [chatGroq, hm, hn, hmr]

lemma chatGroq_ok_eq {m : String} (hist : List ChatMsg) (doc : Option String)
    (env : ChatEnv) (hm : m ≠ "") {nctx t : String}
    (hn : newsCtxResult env m = Except.ok nctx)
    (hmr : env.modelResult = Except.ok t) :
    chatGroq (some m) hist doc env =
      ChatOutput.mk 200 (some t)
        (some (systemPart :: hist.map toGroqPart ++
          [Part.mk "user" (dateCtx env m ++ nctx ++ docCtx doc ++ m)])) true doc := by
  simp [chatGroq, hm, hn, hmr]

lemma chatGroq_modelErr_eq {m : String} (hist : List ChatMsg) (doc : Option String)
    (env : ChatEnv) (hm : m ≠ "") {nctx : String}
    (hn : newsCtxResult env m = Except.ok nctx)
    (hmr : env.modelResult = Except.error ()) :
    chatGroq (some m) hist doc env =
      ChatOutput.mk 500 none
        (some (systemPart :: hist.map toGroqPart ++
          [Part.mk "user" (dateCtx env m ++ nctx ++ docCtx doc ++ m)])) true doc := by
  simp [chatGroq, hm, hn, hmr]

lemma chatGroq_newsErr_eq {m : String} (hist : List ChatMsg) (doc : Option String)
    (env : ChatEnv) (hm : m ≠ "")
    (hn : newsCtxResult env m = Except.error ()) :
    chatGroq (some m) hist doc env = ChatOutput.mk 500 none none false doc := by
  simp [chatGroq, hm, hn]

/-! Claim theorems -/

/-- C5: whenever the Groq chat handler emits a prompt, the role-tagged history
parts sit between the system part and the final user part in input order, entry
`i` of the history becomes part `i + 1` of the prompt with its content string
unchanged, sender `"user"` maps to the `user` role, and every other sender
value (including unrecognized ones) deterministically maps to the `assistant`
role; the Gemini revision's history conversion maps every other sender to the
`model` role in the same way. -/
theorem C5_history_mapping (m : String) (hist : List ChatMsg) (doc : Option String)
    (env : ChatEnv) (ms : List Part)
    (h : (chatGroq (some m) hist doc env).prompt = some ms) :
    ms = systemPart :: hist.map toGroqPart ++
      [Part.mk "user" (dateCtx env m ++ newsCtxStr env m ++ docCtx doc ++ m)] ∧
    (∀ (i : Nat) (s c : String), hist[i]? = some (ChatMsg.mk s c) →
      ms[i + 1]? = some (Part.mk (if s = "user" then "user" else "assistant") c)) ∧
    (∀ (i : Nat) (s c : String), hist[i]? = some (ChatMsg.mk s c) →
      (hist.map toGeminiHist)[i]? =
        some (GEntry.mk (if s = "user" then "user" else "model") [c])) := by
  obtain ⟨m', nctx, hmsg, hm, hn, hms⟩ := chatGroq_prompt_inv h
  injection hmsg with hmm
  subst hmm
  subst hms
  rw [newsCtxStr_eq hn]
  refine ⟨rfl, ?_, ?_⟩
  · intro i s c hi
    obtain ⟨hlt, -⟩ := List.getElem?_eq_some_iff.mp hi
    rw [List.getElem?_append_left
      (by simp only [List.length_cons, List.length_map]; omega)]
    simp only [List.getElem?_cons_succ]
    rw [List.getElem?_map, hi]
    rfl
  · intro i s c hi
    rw [List.getElem?_map, hi]
    rfl

/-- C5 witness: at message `"Q"` and history `[user "hi", bot "yo"]`, history
entry 1 (sender `"bot"`, an unrecognized value) appears as prompt part 2 with
role `assistant` and unchanged content. -/
theorem C5_witness :
    ([systemPart, Part.mk "user" "hi", Part.mk "assistant" "yo",
        Part.mk "user" ("" ++ "" ++ "" ++ "Q")] : List Part)[1 + 1]? =
      some (Part.mk (if "bot" = "user" then "user" else "assistant") "yo") := by
  exact (C5_history_mapping "Q" [ChatMsg.mk "user" "hi", ChatMsg.mk "bot" "yo"] none
    (ChatEnv.mk "D" "T" none NewsNet.jsonNoArticles (Except.ok "A")) _
    (by decide)).2.1 1 "bot" "yo" (by decide)

/-- C6: whenever the message matches a datetime keyword (case-insensitive
substring, per `/date|time|today|now/i`) and the Groq handler emits a prompt,
the final user part is the date/time fragment `Current date: ..., time: ...`
followed by (the remaining context and) the original message text, and the
fragment is non-empty — so the fragment precedes the message. -/
theorem C6_datetime_fragment_precedes_message (m : String) (hist : List ChatMsg)
    (doc : Option String) (env : ChatEnv) (ms : List Part)
    (hq : (chatGroq (some m) hist doc env).prompt = some ms)
    (hd : matchesDate m = true) :
    ms.getLast? = some (Part.mk "user"
      (dateTimeFragment env.dateStr env.timeStr ++
        (newsCtxStr env m ++ (docCtx doc ++ m)))) ∧
    dateTimeFragment env.dateStr env.timeStr ≠ "" := by
  obtain ⟨m', nctx, hmsg, hm, hn, hms⟩ := chatGroq_prompt_inv hq
  injection hmsg with hmm
  subst hmm
  subst hms
  refine ⟨?_, dateTimeFragment_ne_empty _ _⟩
  rw [newsCtxStr_eq hn]
  have hl : (systemPart :: hist.map toGroqPart ++
      [Part.mk "user" (dateCtx env m ++ nctx ++ docCtx doc ++ m)]) =
      (systemPart :: hist.map toGroqPart) ++
        [Part.mk "user" (dateCtx env m ++ nctx ++ docCtx doc ++ m)] := rfl
  rw [hl, List.getLast?_concat]
  have hdc : dateCtx env m = dateTimeFragment env.dateStr env.timeStr := by
    simp [dateCtx, hd]
  rw [hdc]
  simp [String.append_assoc]

/-- C6 witness: at message `"What time is it?"` with empty history and empty
store, the single emitted user part begins with the date/time fragment and
ends with the message. -/
theorem C6_witness :
    ([systemPart, Part.mk "user"
        (dateTimeFragment "Mon Jan 06 2025" "10:00:00 AM" ++ "" ++ "" ++
          "What time is it?")] : List Part).getLast? =
      some (Part.mk "user"
        (dateTimeFragment "Mon Jan 06 2025" "10:00:00 AM" ++
          ("" ++ ("" ++ "What time is it?")))) ∧
    dateTimeFragment "Mon Jan 06 2025" "10:00:00 AM" ≠ "" := by
  exact C6_datetime_fragment_precedes_message "What time is it?" [] none
    (ChatEnv.mk "Mon Jan 06 2025" "10:00:00 AM" none NewsNet.jsonNoArticles
      (Except.ok "A")) _ (by decide) (by decide)

/-- C8: neither chat handler ever writes the document store — after any chat
request, in both revisions, the store equals its value before the request,
regardless of message, history, store contents or model outcome. -/
theorem C8_doc_store_frame (message : Option String) (hist : List ChatMsg)
    (doc : Option String) (env : ChatEnv) (genv : GeminiEnv) :
    (chatGroq message hist doc env).docAfter = doc ∧
    (chatGemini message hist doc genv).docAfter = doc := by
  constructor
  · cases message with
    | none => rfl
    | some m =>
      by_cases hm : m = ""
      · simp [chatGroq, hm]
      · cases hn : newsCtxResult env m <;> cases hmr : env.modelResult <;>
          simp [chatGroq, hm, hn, hmr]
  · cases message with
    | none => rfl
    | some m =>
      by_cases hm : m = ""
      · simp [chatGemini, hm]
      · cases hmr : genv.modelResult <;> simp [chatGemini, hm, hmr]

/-- C10: whenever the Groq chat handler emits a prompt, its first element is
the fixed Campus Connect AI system instruction part, tagged with the `system`
role, ahead of any document context, history part or the final user part. -/
theorem C10_system_part_first (message : Option String) (hist : List ChatMsg)
    (doc : Option String) (env : ChatEnv) (ms : List Part)
    (h : (chatGroq message hist doc env).prompt = some ms) :
    ms.head? = some systemPart ∧
    systemPart = Part.mk "system"
      "You are Campus Connect AI, a helpful academic assistant. Respond clearly and concisely using Markdown." := by
  obtain ⟨m, nctx, hmsg, hm, hn, hms⟩ := chatGroq_prompt_inv h
  subst hms
  exact ⟨rfl, rfl⟩

/-- C1 counterexample: with the store holding `"SYLLABUS"` and history
`[user "hi"]`, the Groq revision emits
`[system, user "hi", user "Document context:\nSYLLABUS\n\nSummarize"]`: the
only part mentioning the document fragment is the final user part (index 2),
which comes after the history part (index 1) — there is no document-context
part before every history part, contradicting the claim. -/
theorem C1_counterexample :
    strTruthy (some "SYLLABUS") = true ∧
    ((chatGroq (some "Summarize") [ChatMsg.mk "user" "hi"] (some "SYLLABUS")
        (ChatEnv.mk "D" "T" none NewsNet.jsonNoArticles (Except.ok "OK"))).prompt).map
      (fun l => l.map mentionsDoc) = some [false, false, true] ∧
    (chatGroq (some "Summarize") [ChatMsg.mk "user" "hi"] (some "SYLLABUS")
        (ChatEnv.mk "D" "T" none NewsNet.jsonNoArticles (Except.ok "OK"))).prompt =
      some [systemPart, Part.mk "user" "hi",
        Part.mk "user" "Document context:\nSYLLABUS\n\nSummarize"] := by
  refine ⟨by decide, by decide, by decide⟩

/-- C1 amended: when the Document Store holds non-empty text, the document
fragment is embedded in the final user turn, after all history parts: in the
Groq revision it is spliced into the final user part's content ahead of the
message text; in the Gemini revision it is the first part of the final user
turn, which follows all history entries. -/
theorem C1_document_in_final_user_turn (m : String) (hist : List ChatMsg) (d : String)
    (env : ChatEnv) (genv : GeminiEnv) (ms : List Part) (cs : List GEntry)
    (hd : d ≠ "")
    (hg : (chatGroq (some m) hist (some d) env).prompt = some ms)
    (hc : (chatGemini (some m) hist (some d) genv).contents = some cs) :
    ms = systemPart :: hist.map toGroqPart ++
      [Part.mk "user" ((dateCtx env m ++ newsCtxStr env m) ++ docFragment d ++ m)] ∧
    cs = hist.map toGeminiHist ++
      [GEntry.mk "user" [docFragmentG d, geminiFinalText genv m]] := by
  obtain ⟨m', nctx, hmsg, hm, hn, hms⟩ := chatGroq_prompt_inv hg
  injection hmsg with hmm
  subst hmm
  subst hms
  constructor
  · rw [newsCtxStr_eq hn]
    have hdc : docCtx (some d) = docFragment d := by simp [docCtx, hd]
    rw [hdc]
  · obtain ⟨m2, hmsg2, hm2, hcs⟩ := chatGemini_contents_inv hc
    injection hmsg2 with hmm2
    subst hmm2
    subst hcs
    simp [geminiFinalParts, hd]

/-- C1 witness: concrete request with store `"NOTES"`; in the Gemini revision
the final user turn carries the document fragment as its first part, after the
single history entry. -/
theorem C1_witness :
    [GEntry.mk "user" ["hey"],
      GEntry.mk "user" [docFragmentG "NOTES",
        geminiFinalText (GeminiEnv.mk "GD" "GT" none (NewsNetG.ok none)
          (Except.ok "R")) "Explain"]] =
      [ChatMsg.mk "user" "hey"].map toGeminiHist ++
        [GEntry.mk "user" [docFragmentG "NOTES",
          geminiFinalText (GeminiEnv.mk "GD" "GT" none (NewsNetG.ok none)
            (Except.ok "R")) "Explain"]] := by
  exact (C1_document_in_final_user_turn "Explain" [ChatMsg.mk "user" "hey"] "NOTES"
    (ChatEnv.mk "D2" "T2" none NewsNet.jsonNoArticles (Except.ok "R"))
    (GeminiEnv.mk "GD" "GT" none (NewsNetG.ok none) (Except.ok "R"))
    [systemPart, Part.mk "user" "hey",
      Part.mk "user" "Document context:\nNOTES\n\nExplain"]
    [GEntry.mk "user" ["hey"],
      GEntry.mk "user" [docFragmentG "NOTES",
        geminiFinalText (GeminiEnv.mk "GD" "GT" none (NewsNetG.ok none)
          (Except.ok "R")) "Explain"]]
    (by decide) (by decide) (by decide)).2

/-- C2 counterexample: `"hello"` matches no datetime and no news keyword, yet
in the Gemini revision the final (and only) user part is the date/time context
followed by `User's query: hello` — not the bare message. -/
theorem C2_counterexample :
    matchesDate "hello" = false ∧ matchesNews "hello" = false ∧
    matchesNewsG "hello" = false ∧
    (chatGemini (some "hello") [] none
        (GeminiEnv.mk "May 5, 2025" "10:00:00" none (NewsNetG.ok none)
          (Except.ok "OK"))).contents =
      some [GEntry.mk "user"
        [geminiBaseCtx (GeminiEnv.mk "May 5, 2025" "10:00:00" none (NewsNetG.ok none)
            (Except.ok "OK")) ++ usersQueryLabel ++ "hello"]] ∧
    geminiBaseCtx (GeminiEnv.mk "May 5, 2025" "10:00:00" none (NewsNetG.ok none)
        (Except.ok "OK")) ++ usersQueryLabel ++ "hello" ≠ "hello" := by
  refine ⟨by decide, by decide, by decide, by decide, by decide⟩

/-- C2 amended: in the Groq revision, when the message matches neither keyword
set AND the Document Store is empty (falsy), the final user part is exactly the
original message; in the Gemini revision the final user part always carries the
date/time prefix and the `User's query: ` label, never the bare message. -/
theorem C2_plain_when_no_keyword (m : String) (hist : List ChatMsg) (doc : Option String)
    (env : ChatEnv) (genv : GeminiEnv)
    (hm : m ≠ "") (h1 : matchesDate m = false) (h2 : matchesNews m = false)
    (h3 : strTruthy doc = false) :
    (chatGroq (some m) hist doc env).prompt =
      some (systemPart :: hist.map toGroqPart ++ [Part.mk "user" m]) ∧
    (matchesNewsG m = false →
      (chatGemini (some m) hist doc genv).contents =
        some (hist.map toGeminiHist ++
          [GEntry.mk "user" [geminiBaseCtx genv ++ usersQueryLabel ++ m]])) := by
  have hn : newsCtxResult env m = Except.ok "" := by simp [newsCtxResult, h2]
  have hdoc : docCtx doc = "" ∧ geminiFinalParts doc genv m = [geminiFinalText genv m] := by
    cases doc with
    | none => exact ⟨rfl, rfl⟩
    | some s =>
      have hs : s = "" := by simpa [strTruthy] using h3
      subst hs
      exact ⟨by simp [docCtx], by simp [geminiFinalParts]⟩
  constructor
  · rw [chatGroq_prompt_eq hist doc env hm hn]
    have hdc : dateCtx env m = "" := by simp [dateCtx, h1]
    rw [hdc, hdoc.1]
    simp
  · intro hgn
    rw [chatGemini_contents_eq hist doc genv hm, hdoc.2]
    have hft : geminiFinalText genv m = geminiBaseCtx genv ++ usersQueryLabel ++ m := by
      simp [geminiFinalText, geminiNewsCtx, hgn]
    rw [hft]

/-- C2 witness: at `"hola"` (no keywords, empty store) the Groq prompt's final
user part is exactly the message. -/
theorem C2_witness :
    (chatGroq (some "hola") [] none
        (ChatEnv.mk "D" "T" none NewsNet.jsonNoArticles (Except.ok "A"))).prompt =
      some (systemPart :: ([] : List ChatMsg).map toGroqPart ++ [Part.mk "user" "hola"]) := by
  exact (C2_plain_when_no_keyword "hola" [] none
    (ChatEnv.mk "D" "T" none NewsNet.jsonNoArticles (Except.ok "A"))
    (GeminiEnv.mk "GD" "GT" none (NewsNetG.ok none) (Except.ok "A"))
    (by decide) (by decide) (by decide) (by decide)).1

/-- C3 counterexample: with a configured key and a throwing fetch, a
news-keyword request in the Groq revision fails with status 500 and the model
is never called, even though the model client itself would have succeeded —
the News Fetcher failure does propagate to the caller, contradicting the
claim for the thrown-error failure mode. -/
theorem C3_counterexample :
    matchesNews "any news" = true ∧
    chatGroq (some "any news") [] none
        (ChatEnv.mk "D" "T" (some "KEY") NewsNet.netError (Except.ok "OK")) =
      ChatOutput.mk 500 none none false none ∧
    (ChatEnv.mk "D" "T" (some "KEY") NewsNet.netError (Except.ok "OK")).modelResult =
      Except.ok "OK" := by
  refine ⟨by decide, by decide, rfl⟩

/-- C3 amended: in the Groq revision, a missing API key or a response without
articles never raises an error — the request proceeds to the model call and
the prompt carries the fixed fallback text in place of the news block — but
when the fetch itself throws, the error escapes `fetchCurrentNews`, is caught
by the route's generic handler, and the request fails with status 500 without
invoking the model. -/
theorem C3_news_failure_modes (m : String) (hist : List ChatMsg) (doc : Option String)
    (env : ChatEnv) (hm : m ≠ "") (hnews : matchesNews m = true) :
    (env.newsKey = none →
      (chatGroq (some m) hist doc env).modelCalled = true ∧
      (chatGroq (some m) hist doc env).prompt =
        some (systemPart :: hist.map toGroqPart ++
          [Part.mk "user" (dateCtx env m ++
            ("Recent news:\n" ++ "News API key not configured." ++ "\n\n") ++
            docCtx doc ++ m)])) ∧
    (∀ k, env.newsKey = some k → env.newsNet = NewsNet.jsonNoArticles →
      (chatGroq (some m) hist doc env).modelCalled = true ∧
      (chatGroq (some m) hist doc env).prompt =
        some (systemPart :: hist.map toGroqPart ++
          [Part.mk "user" (dateCtx env m ++
            ("Recent news:\n" ++ "No news found." ++ "\n\n") ++
            docCtx doc ++ m)])) ∧
    (∀ k, env.newsKey = some k → env.newsNet = NewsNet.netError →
      (chatGroq (some m) hist doc env).status = 500 ∧
      (chatGroq (some m) hist doc env).modelCalled = false ∧
      (chatGroq (some m) hist doc env).prompt = none) := by
  refine ⟨?_, ?_, ?_⟩
  · intro hkey
    have hn : newsCtxResult env m =
        Except.ok ("Recent news:\n" ++ "News API key not configured." ++ "\n\n") := by
      simp [newsCtxResult, hnews, fetchCurrentNews, hkey]
    exact ⟨chatGroq_modelCalled_eq hist doc env hm hn,
      chatGroq_prompt_eq hist doc env hm hn⟩
  · intro k hkey hnet
    have hn : newsCtxResult env m =
        Except.ok ("Recent news:\n" ++ "No news found." ++ "\n\n") := by
      simp [newsCtxResult, hnews, fetchCurrentNews, hkey, hnet]
    exact ⟨chatGroq_modelCalled_eq hist doc env hm hn,
      chatGroq_prompt_eq hist doc env hm hn⟩
  · intro k hkey hnet
    have hn : newsCtxResult env m = Except.error () := by
      simp [newsCtxResult, hnews, fetchCurrentNews, hkey, hnet]
    rw [chatGroq_newsErr_eq hist doc env hm hn]
    exact ⟨rfl, rfl, rfl⟩

/-- C3 witness: with no news key configured (a failure of the News Fetcher per
the claim), a news request still reaches the model call. -/
theorem C3_witness :
    (chatGroq (some "campus news") [] none
        (ChatEnv.mk "D" "T" none NewsNet.netError (Except.ok "A"))).modelCalled = true := by
  exact ((C3_news_failure_modes "campus news" [] none
    (ChatEnv.mk "D" "T" none NewsNet.netError (Except.ok "A"))
    (by decide) (by decide)).1 rfl).1

/-- C4 counterexample: in the Groq revision an upload of a supported
(`text/plain`) file whose extraction yields no text succeeds with status 200
and replaces the store with the empty string — the claim's 400 response for
empty extracted text does not exist in this revision. -/
theorem C4_counterexample :
    supportedGroq "text/plain" = true ∧
    (uploadGroq (some (UploadFile.mk "text/plain" [] [])) (some "OLD")).status = 200 ∧
    uploadGroq (some (UploadFile.mk "text/plain" [] [])) (some "OLD") =
      UploadOutput.mk 200 (some "") := by
  refine ⟨by decide, rfl, by decide⟩

/-- C4 amended: both revisions answer 400 for an unsupported MIME type, and a
successful upload replaces the store wholesale with the joined chunk text; but
only the Gemini revision answers 400 when the loader extracts no documents —
the Groq revision has no empty-extraction check and succeeds with an empty
store. -/
theorem C4_upload_validation (f : UploadFile) (doc : Option String) (lt : Bool) :
    (supportedGroq f.mimetype = false →
      uploadGroq (some f) doc = UploadOutput.mk 400 doc) ∧
    (mimeGeminiOK f.mimetype = false →
      uploadGemini (some f) lt doc = UploadOutput.mk 400 doc) ∧
    (mimeGeminiOK f.mimetype = true → lt = false → f.docs = [] →
      uploadGemini (some f) lt doc = UploadOutput.mk 400 doc) ∧
    (supportedGroq f.mimetype = true →
      uploadGroq (some f) doc = UploadOutput.mk 200 (some (joinChunks f.chunks))) ∧
    (mimeGeminiOK f.mimetype = true → lt = false → f.docs ≠ [] →
      uploadGemini (some f) lt doc = UploadOutput.mk 200 (some (joinChunks f.chunks))) := by
  refine ⟨?_, ?_, ?_, ?_, ?_⟩
  · intro h1
    simp [uploadGroq, h1]
  · intro h1
    simp [uploadGemini, h1]
  · intro h1 h2 h3
    subst h2
    simp [uploadGemini, h1, h3]
  · intro h1
    simp [uploadGroq, h1]
  · intro h1 h2 h3
    subst h2
    cases hh : f.docs with
    | nil => exact absurd hh h3
    | cons a l => simp [uploadGemini, h1, hh]

/-- C4 witness: a plain-text upload whose loader finds no documents is
rejected with 400 by the Gemini revision, keeping the old store. -/
theorem C4_witness :
    uploadGemini (some (UploadFile.mk "text/plain" [] [])) false (some "KEEP") =
      UploadOutput.mk 400 (some "KEEP") := by
  exact (C4_upload_validation (UploadFile.mk "text/plain" [] [])
    (some "KEEP") false).2.2.1 (by decide) rfl rfl

/-- C7 counterexample: a news-keyword message with a throwing news fetch makes
the Groq chat handler answer 500 even though the model client would have
succeeded — so 500 does not occur exactly when the Model Client fails. -/
theorem C7_counterexample :
    matchesNews "headlines" = true ∧
    chatGroq (some "headlines") [ChatMsg.mk "user" "hi"] none
        (ChatEnv.mk "Jan 1" "00:00" (some "NK") NewsNet.netError
          (Except.ok "model reply")) =
      ChatOutput.mk 500 none none false none ∧
    (ChatEnv.mk "Jan 1" "00:00" (some "NK") NewsNet.netError
        (Except.ok "model reply")).modelResult = Except.ok "model reply" := by
  refine ⟨by decide, by decide, rfl⟩

/-- C7 amended: an absent or empty `message` yields 400 with no prompt
assembled and no model call; for a non-empty message the handler answers 200
with `{ response }` when the model client succeeds, 500 when the model client
fails, and also 500 — without any model call — when a news-keyword fetch
throws. -/
theorem C7_chat_status_contract (hist : List ChatMsg) (doc : Option String)
    (env : ChatEnv) :
    chatGroq none hist doc env = ChatOutput.mk 400 none none false doc ∧
    chatGroq (some "") hist doc env = ChatOutput.mk 400 none none false doc ∧
    (∀ m nctx t, m ≠ "" → newsCtxResult env m = Except.ok nctx →
      env.modelResult = Except.ok t →
      (chatGroq (some m) hist doc env).status = 200 ∧
      (chatGroq (some m) hist doc env).response = some t) ∧
    (∀ m nctx, m ≠ "" → newsCtxResult env m = Except.ok nctx →
      env.modelResult = Except.error () →
      (chatGroq (some m) hist doc env).status = 500) ∧
    (∀ m, m ≠ "" → newsCtxResult env m = Except.error () →
      (chatGroq (some m) hist doc env).status = 500 ∧
      (chatGroq (some m) hist doc env).modelCalled = false) := by
  refine ⟨rfl, by simp [chatGroq], ?_, ?_, ?_⟩
  · intro m nctx t hm hn hmr
    rw [chatGroq_ok_eq hist doc env hm hn hmr]
    exact ⟨rfl, rfl⟩
  · intro m nctx hm hn hmr
    rw [chatGroq_modelErr_eq hist doc env hm hn hmr]
  · intro m hm hn
    rw [chatGroq_newsErr_eq hist doc env hm hn]
    exact ⟨rfl, rfl⟩

/-- C7 witness: a successful request returns 200 with the model text in the
`response` field. -/
theorem C7_witness :
    (chatGroq (some "hiya") [] none
        (ChatEnv.mk "D" "T" none NewsNet.jsonNoArticles (Except.ok "sure"))).status = 200 ∧
    (chatGroq (some "hiya") [] none
        (ChatEnv.mk "D" "T" none NewsNet.jsonNoArticles (Except.ok "sure"))).response =
      some "sure" := by
  exact (C7_chat_status_contract [] none
    (ChatEnv.mk "D" "T" none NewsNet.jsonNoArticles (Except.ok "sure"))).2.2.1
    "hiya" "" "sure" (by decide) rfl rfl

/-- C9: an upload rejected by validation — no file attached, or an unsupported
MIME type — leaves the Document Store untouched in both revisions, and answers
400. -/
theorem C9_rejected_upload_preserves_store (doc : Option String) (f : UploadFile)
    (lt : Bool) :
    uploadGroq none doc = UploadOutput.mk 400 doc ∧
    uploadGemini none lt doc = UploadOutput.mk 400 doc ∧
    (supportedGroq f.mimetype = false →
      (uploadGroq (some f) doc).docAfter = doc ∧
      (uploadGroq (some f) doc).status = 400) ∧
    (mimeGeminiOK f.mimetype = false →
      (uploadGemini (some f) lt doc).docAfter = doc ∧
      (uploadGemini (some f) lt doc).status = 400) := by
  refine ⟨rfl, rfl, ?_, ?_⟩
  · intro h1
    simp [uploadGroq, h1]
  · intro h1
    simp [uploadGemini, h1]

/-- C9 witness: a rejected `image/png` upload keeps the previously stored
document text. -/
theorem C9_witness :
    (uploadGroq (some (UploadFile.mk "image/png" ["x"] ["x"])) (some "RESIDENT")).docAfter =
      some "RESIDENT" := by
  exact ((C9_rejected_upload_preserves_store (some "RESIDENT")
    (UploadFile.mk "image/png" ["x"] ["x"]) false).2.2.1 (by decide)).1

/-- C10 witness: a concrete successful request whose prompt starts with the
system part. -/
theorem C10_witness :
    ([systemPart, Part.mk "user" ("" ++ "" ++ "" ++ "hi there")] : List Part).head? =
      some systemPart ∧
    systemPart = Part.mk "system"
      "You are Campus Connect AI, a helpful academic assistant. Respond clearly and concisely using Markdown." := by
  exact C10_system_part_first (some "hi there") [] none
    (ChatEnv.mk "D" "T" none NewsNet.jsonNoArticles (Except.ok "A")) _ (by decide)

end CampusConnect
